import Mathlib

/-!
Verification development for the portal raycast-and-transfer subsystem of the
`portal/` mini-game (files `player.py`, `objects.py`, `enemy.py`, `portal.py`,
`level.py`).

Modelling conventions:
* pygame float arithmetic is idealized over the rationals `ℚ`;
* `pygame.Vector2` becomes the structure `Vec`; `pygame.Rect` becomes `Rect`
  with the pygame point/rect collision semantics (right and bottom edges
  exclusive for `collidepoint`, strict inequalities for `colliderect`);
* the float normalization `direction.normalize_ip()` in `raycast_to_wall` is
  modelled by passing the normalized direction explicitly as `unit_dir`,
  constrained in theorems by the predicate `IsUnitDirOf`;
* `math.cos(math.radians d)` and `math.sin(math.radians d)` are given their
  exact values at the angles reachable in the program (portal angles are only
  ever 0 or 90 degrees, so angle differences are 0, 90 or -90).
-/

/-- Planar vector with rational coordinates, modelling `pygame.Vector2`. -/
structure Vec where
  x : ℚ
  y : ℚ
deriving DecidableEq

def Vec.add (a b : Vec) : Vec := ⟨a.x + b.x, a.y + b.y⟩

instance : Add Vec := ⟨Vec.add⟩

def Vec.sub (a b : Vec) : Vec := ⟨a.x - b.x, a.y - b.y⟩

instance : Sub Vec := ⟨Vec.sub⟩

def Vec.smul (t : ℚ) (v : Vec) : Vec := ⟨t * v.x, t * v.y⟩

instance : SMul ℚ Vec := ⟨Vec.smul⟩

/-- Zero vector. -/
def Vec.zero : Vec := ⟨0, 0⟩

/-- Squared euclidean length; `v.length() == 0` in the source is equivalent to
`v.normSq = 0`. -/
def Vec.normSq (v : Vec) : ℚ := v.x ^ 2 + v.y ^ 2

theorem Vec.ext_xy {a b : Vec} (hx : a.x = b.x) (hy : a.y = b.y) : a = b := by
  cases a; cases b; cases hx; cases hy; rfl

@[simp] theorem Vec.add_x (a b : Vec) : (a + b).x = a.x + b.x := rfl

@[simp] theorem Vec.add_y (a b : Vec) : (a + b).y = a.y + b.y := rfl

@[simp] theorem Vec.sub_x (a b : Vec) : (a - b).x = a.x - b.x := rfl

@[simp] theorem Vec.sub_y (a b : Vec) : (a - b).y = a.y - b.y := rfl

@[simp] theorem Vec.smul_x (t : ℚ) (v : Vec) : (t • v).x = t * v.x := rfl

@[simp] theorem Vec.smul_y (t : ℚ) (v : Vec) : (t • v).y = t * v.y := rfl

/-- Axis-aligned rectangle `pygame.Rect(x, y, w, h)` (coordinates idealized
over `ℚ`; pygame truncates to machine integers, which none of the verified
properties depend on). -/
structure Rect where
  x : ℚ
  y : ℚ
  w : ℚ
  h : ℚ
deriving DecidableEq

def Rect.left (r : Rect) : ℚ := r.x

def Rect.right (r : Rect) : ℚ := r.x + r.w

def Rect.top (r : Rect) : ℚ := r.y

def Rect.bottom (r : Rect) : ℚ := r.y + r.h

/-- Center of a rectangle, `pygame.Rect.center`. -/
def Rect.center (r : Rect) : Vec := ⟨r.x + r.w / 2, r.y + r.h / 2⟩

/-- pygame `Rect.collidepoint`: a point on the left/top edge is inside, a
point on the right/bottom edge is not. -/
def Rect.collidepoint (r : Rect) (p : Vec) : Bool :=
  decide (r.left ≤ p.x) && decide (p.x < r.right) &&
  decide (r.top ≤ p.y) && decide (p.y < r.bottom)

/-- pygame `Rect.colliderect`: true iff the interiors overlap (rectangles that
merely share an edge do not collide). -/
def Rect.colliderect (a b : Rect) : Bool :=
  decide (a.left < b.right) && decide (a.right > b.left) &&
  decide (a.top < b.bottom) && decide (a.bottom > b.top)

/-- Obstacle from `level.py`: an axis-aligned rectangle plus the
`allows_portals` flag. -/
structure Obstacle where
  rect : Rect
  allows_portals : Bool
deriving DecidableEq

/-- Result of a successful raycast: hit position, outward wall normal, and the
obstacle struck (`raycast_to_wall` returns the triple, or `None, None, None`). -/
structure RayHit where
  pos : Vec
  normal : Vec
  obstacle : Obstacle
deriving DecidableEq

/-- `Player.calculate_wall_normal`: distances from the hit position to the four
edges of the struck obstacle's rectangle; the first minimal edge in the order
left, right, top, bottom determines the returned axis-aligned unit normal. -/
def calculate_wall_normal (hit_pos : Vec) (obstacle : Obstacle) : Vec :=
  let rect := obstacle.rect
  let dist_left := |hit_pos.x - rect.left|
  let dist_right := |hit_pos.x - rect.right|
  let dist_top := |hit_pos.y - rect.top|
  let dist_bottom := |hit_pos.y - rect.bottom|
  let min_dist := min (min (min dist_left dist_right) dist_top) dist_bottom
  if min_dist = dist_left then ⟨-1, 0⟩
  else if min_dist = dist_right then ⟨1, 0⟩
  else if min_dist = dist_top then ⟨0, -1⟩
  else ⟨0, 1⟩

/-- Step size of the raycast march (`step_size = 5` in `raycast_to_wall`). -/
def step_size : ℚ := 5

/-- Maximum raycast distance (`max_distance = 1000`). -/
def max_distance : ℚ := 1000

/-- Number of loop iterations, `int(max_distance / step_size) = 200`. -/
def num_steps : Nat := 200

/-- Inner loop of `raycast_to_wall`: scan the obstacle list for the first one
whose rectangle contains the probe point (the `for obstacle in
level.obstacles` loop with its early return). -/
def findHitObstacle (p : Vec) (obstacles : List Obstacle) : Option Obstacle :=
  obstacles.find? (fun o => o.rect.collidepoint p)

/-- Outer loop of `raycast_to_wall`: advance the probe point by
`step_size • direction` each iteration; on the first containing obstacle,
return the hit position, its wall normal and the obstacle. -/
def raycastSteps (direction : Vec) (obstacles : List Obstacle) :
    Vec → Nat → Option RayHit
  | _, 0 => none
  | current_pos, n + 1 =>
    let next_pos := current_pos + step_size • direction
    match findHitObstacle next_pos obstacles with
    | some obstacle =>
        some ⟨next_pos, calculate_wall_normal next_pos obstacle, obstacle⟩
    | none => raycastSteps direction obstacles next_pos n

/-- `Player.raycast_to_wall`. The zero-length check `direction.length() == 0`
is the test `normSq = 0`; `unit_dir` stands for the normalized direction
produced by `direction.normalize_ip()` (see `IsUnitDirOf`). -/
def raycast_to_wall (start_pos end_pos unit_dir : Vec)
    (obstacles : List Obstacle) : Option RayHit :=
  let direction := end_pos - start_pos
  if direction.normSq = 0 then none
  else raycastSteps unit_dir obstacles start_pos num_steps

/-- Constraint tying `unit_dir` to the un-normalized direction `d`: it is a
positive rescaling of `d` of unit length, exactly what
`direction.normalize_ip()` computes (idealized over `ℚ`). -/
def IsUnitDirOf (d u : Vec) : Prop :=
  (∃ t : ℚ, 0 < t ∧ u = t • d) ∧ u.normSq = 1

/-- Portal orientation, the string field `"vertical" | "horizontal"`. -/
inductive PortalOrientation where
  | vertical
  | horizontal
deriving DecidableEq

/-- Portal color, the string field `"blue" | "orange"` naming the channel. -/
inductive PortalColor where
  | blue
  | orange
deriving DecidableEq

/-- Portal from `portal.py`. `width`, `height` and `angle` are assigned in
`Portal.__init__` purely from the orientation and never reassigned, and
`rect` always equals `Rect(pos.x, pos.y, width, height)` at every function
boundary (re-established after the placement shift in `create_portal`), so
they are modelled as derived functions of the two stored fields. -/
structure Portal where
  pos : Vec
  orientation : PortalOrientation
  color : PortalColor
deriving DecidableEq

/-- Portal width: 20 for vertical, 80 for horizontal (`Portal.__init__`). -/
def Portal.width (p : Portal) : ℚ :=
  match p.orientation with
  | .vertical => 20
  | .horizontal => 80

/-- Portal height: 80 for vertical, 20 for horizontal (`Portal.__init__`). -/
def Portal.height (p : Portal) : ℚ :=
  match p.orientation with
  | .vertical => 80
  | .horizontal => 20

/-- Portal angle in degrees: 90 for vertical, 0 for horizontal
(`Portal.__init__`). -/
def Portal.angle (p : Portal) : ℚ :=
  match p.orientation with
  | .vertical => 90
  | .horizontal => 0

/-- Portal collision rectangle `pygame.Rect(pos.x, pos.y, width, height)`. -/
def Portal.rect (p : Portal) : Rect :=
  ⟨p.pos.x, p.pos.y, p.width, p.height⟩

/-- `Player.create_portal`: raycast from the player position toward the
target; on a hit on a portal-allowing obstacle, derive the orientation from
the normal, build the portal at the hit position and shift it to embed it in
the wall. The source's two sub-branches on the normal's sign are kept even
though both apply the same shift (the collapsed-branch behavior flagged in
the design notes). Returns `none` where the source returns `None`. -/
def create_portal (player_pos target_pos unit_dir : Vec) (color : PortalColor)
    (obstacles : List Obstacle) : Option Portal :=
  match raycast_to_wall player_pos target_pos unit_dir obstacles with
  | none => none
  | some hit =>
    if hit.obstacle.allows_portals then
      let orientation :=
        if |hit.normal.x| > |hit.normal.y| then PortalOrientation.vertical
        else PortalOrientation.horizontal
      let portal : Portal := ⟨hit.pos, orientation, color⟩
      let adjusted_pos : Vec :=
        match orientation with
        | .vertical =>
          let px :=
            if hit.normal.x < 0 then portal.pos.x - portal.width / 2
            else portal.pos.x - portal.width / 2
          ⟨px, portal.pos.y - portal.height / 2⟩
        | .horizontal =>
          let py :=
            if hit.normal.y < 0 then portal.pos.y - portal.height / 2
            else portal.pos.y - portal.height / 2
          ⟨portal.pos.x - portal.width / 2, py⟩
      some { portal with pos := adjusted_pos }
    else none

/-- Player state (`Player.__init__`): position, velocity and the two portal
slots. Movement parameters and facing are irrelevant to the verified claims. -/
structure PlayerState where
  pos : Vec
  vel : Vec
  blue_portal : Option Portal
  orange_portal : Option Portal
deriving DecidableEq

/-- Player hitbox `self.size = pygame.Vector2(32, 64)`. -/
def player_size : Vec := ⟨32, 64⟩

/-- Player bounding rectangle `pygame.Rect(pos.x, pos.y, size.x, size.y)`. -/
def PlayerState.rect (s : PlayerState) : Rect :=
  ⟨s.pos.x, s.pos.y, player_size.x, player_size.y⟩

/-- `Player.handle_event` for a `MOUSEBUTTONDOWN` event: convert the mouse
position to world coordinates by the camera offset, then assign the result of
`create_portal` to the blue slot on button 1 and the orange slot on button 3.
`unit_dir` is the normalized direction from the player to the world point. -/
def handle_event (s : PlayerState) (button : Nat) (mouse_pos camera_offset unit_dir : Vec)
    (obstacles : List Obstacle) : PlayerState :=
  let world : Vec := ⟨mouse_pos.x + camera_offset.x, mouse_pos.y + camera_offset.y⟩
  if button = 1 then
    { s with blue_portal := create_portal s.pos world unit_dir PortalColor.blue obstacles }
  else if button = 3 then
    { s with orange_portal := create_portal s.pos world unit_dir PortalColor.orange obstacles }
  else s

/-- Exact value of `math.cos(math.radians d)` at the angle differences
reachable in the program (portal angles are 0 or 90, so differences between
two portal angles are 0, 90 or -90; 180 is included for completeness). -/
def cosDeg (d : ℚ) : ℚ :=
  if d = 0 then 1
  else if d = 90 ∨ d = -90 then 0
  else if d = 180 ∨ d = -180 then -1
  else 0

/-- Exact value of `math.sin(math.radians d)` at the same angles. -/
def sinDeg (d : ℚ) : ℚ :=
  if d = 90 then 1
  else if d = -90 then -1
  else 0

/-- Velocity rotation lines shared verbatim by `Player.teleport_through_portal`,
`PhysicsObject.teleport_through_portal` and `Enemy.teleport_through_portal`:
`vx' = vx cos θ - vy sin θ`, `vy' = vx sin θ + vy cos θ` with
`θ = radians(angle_diff)`. -/
def rotate_velocity (angle_diff : ℚ) (old_vel : Vec) : Vec :=
  ⟨old_vel.x * cosDeg angle_diff - old_vel.y * sinDeg angle_diff,
   old_vel.x * sinDeg angle_diff + old_vel.y * cosDeg angle_diff⟩

/-- Penetration direction in `Player.teleport_through_portal`:
`1 if self.vel.x > 0 else -1` for a vertical entry portal, the same on the y
component for a horizontal one. -/
def player_penetration_dir (entry_orientation : PortalOrientation) (vel : Vec) : ℚ :=
  match entry_orientation with
  | .vertical => if vel.x > 0 then 1 else -1
  | .horizontal => if vel.y > 0 then 1 else -1

/-- Penetration direction in `PhysicsObject.teleport_through_portal`; the
source lines are identical to the player's. -/
def object_penetration_dir (entry_orientation : PortalOrientation) (vel : Vec) : ℚ :=
  match entry_orientation with
  | .vertical => if vel.x > 0 then 1 else -1
  | .horizontal => if vel.y > 0 then 1 else -1

/-- `Player.teleport_through_portal`. The unused `penetration_dist` of the
source is omitted; the safe offset for the player is the constant 25. The
final `self.vel *= 1.05` is the `21/20` scaling. -/
def PlayerState.teleport_through_portal (s : PlayerState)
    (entry_portal exit_portal : Portal) : PlayerState :=
  let player_center : Vec :=
    ⟨s.pos.x + player_size.x / 2, s.pos.y + player_size.y / 2⟩
  let entry_center : Vec := entry_portal.rect.center
  let penetration_dir := player_penetration_dir entry_portal.orientation s.vel
  let angle_diff := exit_portal.angle - entry_portal.angle
  let new_pos : Vec :=
    match exit_portal.orientation with
    | .vertical =>
      let offset : ℚ := 25
      let offset_y := player_center.y - entry_center.y
      ⟨exit_portal.pos.x + offset * penetration_dir,
       exit_portal.pos.y + exit_portal.height / 2 - player_size.y / 2 + offset_y⟩
    | .horizontal =>
      let offset_x := player_center.x - entry_center.x
      let offset : ℚ := 25
      ⟨exit_portal.pos.x + exit_portal.width / 2 - player_size.x / 2 + offset_x,
       exit_portal.pos.y + offset * penetration_dir⟩
  let new_vel : Vec := (21 / 20 : ℚ) • rotate_velocity angle_diff s.vel
  { s with pos := new_pos, vel := new_vel }

/-- Physics object state (`PhysicsObject.__init__`): position, velocity and a
per-instance size; the physics parameters play no part in the teleport. -/
structure ObjectState where
  pos : Vec
  vel : Vec
  size : Vec
deriving DecidableEq

/-- Physics object bounding rectangle, kept equal to
`pygame.Rect(pos.x, pos.y, size.x, size.y)` by the source's rect updates. -/
def ObjectState.rect (s : ObjectState) : Rect :=
  ⟨s.pos.x, s.pos.y, s.size.x, s.size.y⟩

/-- `PhysicsObject.teleport_through_portal`: same algorithm as the player's,
with clearance `size/2` on the exit axis instead of the constant 25. -/
def ObjectState.teleport_through_portal (s : ObjectState)
    (entry_portal exit_portal : Portal) : ObjectState :=
  let entry_center : Vec := entry_portal.rect.center
  let obj_center : Vec := s.rect.center
  let penetration_dir := object_penetration_dir entry_portal.orientation s.vel
  let angle_diff := exit_portal.angle - entry_portal.angle
  let new_pos : Vec :=
    match exit_portal.orientation with
    | .vertical =>
      let offset_y := obj_center.y - entry_center.y
      ⟨exit_portal.pos.x + s.size.x / 2 * penetration_dir,
       exit_portal.pos.y + exit_portal.height / 2 - s.size.y / 2 + offset_y⟩
    | .horizontal =>
      let offset_x := obj_center.x - entry_center.x
      ⟨exit_portal.pos.x + exit_portal.width / 2 - s.size.x / 2 + offset_x,
       exit_portal.pos.y + s.size.y / 2 * penetration_dir⟩
  let new_vel : Vec := (21 / 20 : ℚ) • rotate_velocity angle_diff s.vel
  { s with pos := new_pos, vel := new_vel }

/-- Enemy state (`Enemy.__init__`): position and velocity; the AI fields and
the portal-cooldown timestamp are irrelevant to the teleport transform
itself. -/
structure EnemyState where
  pos : Vec
  vel : Vec
deriving DecidableEq

/-- `Enemy.teleport_through_portal`: snap to the exit portal's stored position
and rotate the velocity; unlike the player and the physics object there is no
penetration direction, no lateral offset and no `1.05` boost. -/
def EnemyState.teleport_through_portal (s : EnemyState)
    (entry_portal exit_portal : Portal) : EnemyState :=
  let new_pos : Vec := ⟨exit_portal.pos.x, exit_portal.pos.y⟩
  let angle_diff := exit_portal.angle - entry_portal.angle
  let new_vel : Vec := rotate_velocity angle_diff s.vel
  { s with pos := new_pos, vel := new_vel }

/-- Exit-repositioning rule shared by `Player.teleport_through_portal` and
`PhysicsObject.teleport_through_portal`, abstracted over the per-kind
configuration: along the exit portal's orientation axis the actor is placed
at the exit portal's stored position plus the kind's clearance for that axis
times the penetration direction; along the cross axis the actor's center
offset from the entry portal's center is preserved relative to the exit
portal. The player instantiates the clearances with the constant 25 on both
axes; the physics body with `size.x / 2` and `size.y / 2`. -/
def reposition_at_exit (clearance_x clearance_y : ℚ) (size center : Vec)
    (entry_portal exit_portal : Portal) (penetration_dir : ℚ) : Vec :=
  let entry_center : Vec := entry_portal.rect.center
  match exit_portal.orientation with
  | .vertical =>
    let offset_y := center.y - entry_center.y
    ⟨exit_portal.pos.x + clearance_x * penetration_dir,
     exit_portal.pos.y + exit_portal.height / 2 - size.y / 2 + offset_y⟩
  | .horizontal =>
    let offset_x := center.x - entry_center.x
    ⟨exit_portal.pos.x + exit_portal.width / 2 - size.x / 2 + offset_x,
     exit_portal.pos.y + clearance_y * penetration_dir⟩

theorem raycastSteps_nil (u : Vec) (n : Nat) (pos : Vec) :
    raycastSteps u [] pos n = none := by
  induction n generalizing pos with
  | zero => rfl
  | succ n ih => simpa [raycastSteps, findHitObstacle] using ih _

theorem raycastSteps_probe (u : Vec) (obs : List Obstacle) (n : Nat) (pos : Vec)
    (hit : RayHit) (h : raycastSteps u obs pos n = some hit) :
    ∃ k : Nat, 1 ≤ k ∧ k ≤ n ∧ hit.pos = pos + ((step_size * k : ℚ)) • u := by
  induction n generalizing pos with
  | zero => simp [raycastSteps] at h
  | succ n ih =>
    rw [raycastSteps] at h
    cases hfind : findHitObstacle (pos + step_size • u) obs with
    | some o =>
      rw [hfind] at h
      refine ⟨1, le_refl 1, by omega, ?_⟩
      cases h
      apply Vec.ext_xy <;> simp
    | none =>
      rw [hfind] at h
      obtain ⟨k, hk1, hk2, hpos⟩ := ih _ h
      refine ⟨k + 1, by omega, by omega, ?_⟩
      rw [hpos]
      apply Vec.ext_xy <;> simp <;> ring

theorem probe_shift (pos u : Vec) (t : ℚ) :
    pos + step_size • u + (step_size * t) • u = pos + (step_size * (t + 1)) • u := by
  apply Vec.ext_xy <;> simp <;> ring

theorem raycastSteps_first_hit (u : Vec) (obs : List Obstacle) (n : Nat) :
    ∀ (k : Nat) (pos : Vec) (o : Obstacle), 1 ≤ k → k ≤ n →
    (∀ j : Nat, 1 ≤ j → j < k →
      findHitObstacle (pos + ((step_size * j : ℚ)) • u) obs = none) →
    findHitObstacle (pos + ((step_size * k : ℚ)) • u) obs = some o →
    raycastSteps u obs pos n =
      some ⟨pos + ((step_size * k : ℚ)) • u,
            calculate_wall_normal (pos + ((step_size * k : ℚ)) • u) o, o⟩ := by
  induction n with
  | zero => intro k pos o hk1 hkn _ _; omega
  | succ n ih =>
    intro k pos o hk1 hkn hprev hhit
    obtain ⟨m, rfl⟩ : ∃ m, k = m + 1 := ⟨k - 1, by omega⟩
    cases m with
    | zero =>
      have e : pos + ((step_size * ((0 + 1 : ℕ) : ℚ)) • u) = pos + step_size • u := by
        apply Vec.ext_xy <;> simp
      rw [e] at hhit
      rw [raycastSteps, hhit, e]
    | succ m =>
      have h1 : findHitObstacle (pos + step_size • u) obs = none := by
        have := hprev 1 le_rfl (by omega)
        simpa using this
      rw [raycastSteps, h1]
      have hcast : ((m + 1 + 1 : ℕ) : ℚ) = ((m + 1 : ℕ) : ℚ) + 1 := by push_cast; ring
      have key := ih (m + 1) (pos + step_size • u) o (by omega) (by omega)
        (by
          intro j hj1 hj2
          rw [probe_shift]
          have := hprev (j + 1) (by omega) (by omega)
          have hc : ((j + 1 : ℕ) : ℚ) = (j : ℚ) + 1 := by push_cast; ring
          rwa [hc] at this)
        (by
          rw [probe_shift, ← hcast]
          exact hhit)
      rw [key, probe_shift, ← hcast]

/-- C9: `cast` returns the explicit no-hit value when origin equals target
(the zero-length direction is rejected before normalization), and over an
empty obstacle set; being a total function of its inputs, it raises no
exception in either case. -/
theorem C9_degenerate_raycast (start_pos end_pos unit_dir : Vec)
    (obstacles : List Obstacle) :
    (end_pos = start_pos →
      raycast_to_wall start_pos end_pos unit_dir obstacles = none) ∧
    raycast_to_wall start_pos end_pos unit_dir [] = none := by
  constructor
  · intro h
    subst h
    simp [raycast_to_wall, Vec.normSq]
  · unfold raycast_to_wall
    by_cases hz : (end_pos - start_pos).normSq = 0
    · rw [if_pos hz]
    · rw [if_neg hz]
      exact raycastSteps_nil unit_dir num_steps start_pos

/-- C9 witness: origin = target with a non-empty obstacle set returns no hit. -/
theorem C9_witness :
    (⟨5, 7⟩ : Vec) = ⟨5, 7⟩ ∧
    raycast_to_wall ⟨5, 7⟩ ⟨5, 7⟩ ⟨1, 0⟩ [⟨⟨0, 0, 10, 10⟩, true⟩] = none :=
  ⟨rfl, (C9_degenerate_raycast ⟨5, 7⟩ ⟨5, 7⟩ ⟨1, 0⟩ [⟨⟨0, 0, 10, 10⟩, true⟩]).1 rfl⟩

/-- C10: every hit lies exactly at `origin + k * step_size • unit_dir` for
some `1 ≤ k ≤ 200`; consequently a hit is never at the origin itself, and its
distance from the origin (stated via the squared norm) is `5 k ≤ 1000`. -/
theorem C10_hit_on_probe_points (start_pos end_pos unit_dir : Vec)
    (obstacles : List Obstacle) (hit : RayHit)
    (hu : IsUnitDirOf (end_pos - start_pos) unit_dir)
    (h : raycast_to_wall start_pos end_pos unit_dir obstacles = some hit) :
    ∃ k : Nat, 1 ≤ k ∧ k ≤ num_steps ∧
      hit.pos = start_pos + ((step_size * k : ℚ)) • unit_dir ∧
      hit.pos ≠ start_pos ∧
      (hit.pos - start_pos).normSq = (step_size * k) ^ 2 ∧
      step_size * k ≤ max_distance := by
  obtain ⟨⟨t, ht, hu1⟩, hnorm⟩ := hu
  unfold raycast_to_wall at h
  by_cases hz : (end_pos - start_pos).normSq = 0
  · rw [if_pos hz] at h; cases h
  · rw [if_neg hz] at h
    obtain ⟨k, hk1, hk2, hpos⟩ :=
      raycastSteps_probe unit_dir obstacles num_steps start_pos hit h
    have hkq : (1 : ℚ) ≤ (k : ℚ) := by exact_mod_cast hk1
    have hsub : hit.pos - start_pos = ((step_size * k : ℚ)) • unit_dir := by
      rw [hpos]; apply Vec.ext_xy <;> simp
    have hns : (hit.pos - start_pos).normSq = (step_size * k) ^ 2 := by
      rw [hsub]
      simp only [Vec.normSq] at hnorm ⊢
      simp only [Vec.smul_x, Vec.smul_y]
      linear_combination ((step_size * (k : ℚ)) ^ 2) * hnorm
    have hne : hit.pos ≠ start_pos := by
      intro he
      rw [he] at hns
      simp [Vec.normSq, step_size] at hns
      nlinarith [hns, hkq]
    have hle : step_size * (k : ℚ) ≤ max_distance := by
      have : (k : ℚ) ≤ 200 := by exact_mod_cast hk2
      simp only [step_size, max_distance]
      linarith
    exact ⟨k, hk1, hk2, hpos, hne, hns, hle⟩

/-- Unfolded form of point containment used to evaluate concrete scenes. -/
theorem collidepoint_true_iff (r : Rect) (p : Vec) :
    r.collidepoint p = true ↔
      r.x ≤ p.x ∧ p.x < r.x + r.w ∧ r.y ≤ p.y ∧ p.y < r.y + r.h := by
  simp [Rect.collidepoint, Rect.left, Rect.right, Rect.top, Rect.bottom, and_assoc]

theorem collidepoint_false_iff (r : Rect) (p : Vec) :
    r.collidepoint p = false ↔
      ¬(r.x ≤ p.x ∧ p.x < r.x + r.w ∧ r.y ≤ p.y ∧ p.y < r.y + r.h) := by
  rw [← collidepoint_true_iff]
  cases h : r.collidepoint p <;> simp

theorem findHitObstacle_nil (p : Vec) : findHitObstacle p [] = none := rfl

theorem findHitObstacle_cons (p : Vec) (o : Obstacle) (l : List Obstacle) :
    findHitObstacle p (o :: l) =
      if o.rect.collidepoint p then some o else findHitObstacle p l := by
  by_cases h : o.rect.collidepoint p = true
  · rw [if_pos h]
    exact List.find?_cons_of_pos _ h
  · rw [if_neg h]
    exact List.find?_cons_of_neg _ h

theorem raycast_to_wall_pos (start_pos end_pos unit_dir : Vec)
    (obstacles : List Obstacle)
    (hz : (end_pos - start_pos).normSq ≠ 0) :
    raycast_to_wall start_pos end_pos unit_dir obstacles =
      raycastSteps unit_dir obstacles start_pos num_steps := by
  unfold raycast_to_wall
  rw [if_neg hz]

/-- Concrete scene: a portal-allowing wall spanning x in [10, 30); the ray
from the origin toward (100, 0) hits it at the probe point (10, 0) with the
left-edge normal. -/
theorem sceneW_hit :
    raycast_to_wall ⟨0, 0⟩ ⟨100, 0⟩ ⟨1, 0⟩ [⟨⟨10, -5, 20, 10⟩, true⟩] =
      some ⟨⟨10, 0⟩, ⟨-1, 0⟩, ⟨⟨10, -5, 20, 10⟩, true⟩⟩ := by
  rw [raycast_to_wall_pos]
  · have h2 : ((⟨0, 0⟩ : Vec) + ((step_size * ((2 : ℕ) : ℚ)) • ⟨1, 0⟩)) = (⟨10, 0⟩ : Vec) := by
      apply Vec.ext_xy <;> simp [step_size]
      norm_num
    have hkey := raycastSteps_first_hit (⟨1, 0⟩ : Vec) [⟨⟨10, -5, 20, 10⟩, true⟩]
      num_steps 2 ⟨0, 0⟩ ⟨⟨10, -5, 20, 10⟩, true⟩ (by norm_num) (by norm_num [num_steps])
      (by
        intro j hj1 hj2
        have hj : j = 1 := by omega
        subst hj
        have h1 : ((⟨0, 0⟩ : Vec) + ((step_size * ((1 : ℕ) : ℚ)) • ⟨1, 0⟩)) = (⟨5, 0⟩ : Vec) := by
          apply Vec.ext_xy <;> simp [step_size]
        rw [h1, findHitObstacle_cons, if_neg, findHitObstacle_nil]
        rw [Bool.not_eq_true, collidepoint_false_iff]
        norm_num)
      (by
        rw [h2, findHitObstacle_cons, if_pos]
        rw [collidepoint_true_iff]
        norm_num)
    rw [hkey, h2]
    have hn : calculate_wall_normal ⟨10, 0⟩ ⟨⟨10, -5, 20, 10⟩, true⟩ = ⟨-1, 0⟩ := by
      simp only [calculate_wall_normal, Rect.left, Rect.right, Rect.top, Rect.bottom]
      norm_num
    rw [hn]
  · simp only [Vec.normSq, Vec.sub_x, Vec.sub_y]
    norm_num

/-- C10 witness: the concrete scene's hit satisfies the probe-point bounds. -/
theorem C10_witness :
    IsUnitDirOf ((⟨100, 0⟩ : Vec) - ⟨0, 0⟩) ⟨1, 0⟩ ∧
    raycast_to_wall ⟨0, 0⟩ ⟨100, 0⟩ ⟨1, 0⟩ [⟨⟨10, -5, 20, 10⟩, true⟩] =
      some ⟨⟨10, 0⟩, ⟨-1, 0⟩, ⟨⟨10, -5, 20, 10⟩, true⟩⟩ ∧
    ∃ k : Nat, 1 ≤ k ∧ k ≤ num_steps ∧
      (⟨⟨10, 0⟩, ⟨-1, 0⟩, ⟨⟨10, -5, 20, 10⟩, true⟩⟩ : RayHit).pos =
        (⟨0, 0⟩ : Vec) + ((step_size * k : ℚ)) • ⟨1, 0⟩ ∧
      (⟨⟨10, 0⟩, ⟨-1, 0⟩, ⟨⟨10, -5, 20, 10⟩, true⟩⟩ : RayHit).pos ≠ (⟨0, 0⟩ : Vec) ∧
      ((⟨⟨10, 0⟩, ⟨-1, 0⟩, ⟨⟨10, -5, 20, 10⟩, true⟩⟩ : RayHit).pos - ⟨0, 0⟩).normSq =
        (step_size * k) ^ 2 ∧
      step_size * k ≤ max_distance := by
  have hu : IsUnitDirOf ((⟨100, 0⟩ : Vec) - ⟨0, 0⟩) ⟨1, 0⟩ := by
    refine ⟨⟨1 / 100, by norm_num, ?_⟩, ?_⟩
    · apply Vec.ext_xy <;> simp
    · simp [Vec.normSq]
  exact ⟨hu, sceneW_hit,
    C10_hit_on_probe_points ⟨0, 0⟩ ⟨100, 0⟩ ⟨1, 0⟩ [⟨⟨10, -5, 20, 10⟩, true⟩] _ hu sceneW_hit⟩

/-- C4 counterexample: two obstacles both lie along the ray from (0,0) toward
(100,0) — the first at distance 6, the second at distance 10 — but the thin
nearer obstacle spans x in [6,9) and so contains no probe point of the 5-unit
march; `cast` returns the farther obstacle. -/
theorem C4_counterexample :
    IsUnitDirOf ((⟨100, 0⟩ : Vec) - ⟨0, 0⟩) ⟨1, 0⟩ ∧
    (⟨⟨6, -5, 3, 10⟩, true⟩ : Obstacle).rect.collidepoint
      ((⟨0, 0⟩ : Vec) + (6 : ℚ) • ⟨1, 0⟩) = true ∧
    (⟨⟨10, -5, 20, 10⟩, true⟩ : Obstacle).rect.collidepoint
      ((⟨0, 0⟩ : Vec) + (10 : ℚ) • ⟨1, 0⟩) = true ∧
    (6 : ℚ) < 10 ∧
    raycast_to_wall ⟨0, 0⟩ ⟨100, 0⟩ ⟨1, 0⟩
      [⟨⟨6, -5, 3, 10⟩, true⟩, ⟨⟨10, -5, 20, 10⟩, true⟩] =
      some ⟨⟨10, 0⟩, ⟨-1, 0⟩, ⟨⟨10, -5, 20, 10⟩, true⟩⟩ ∧
    (⟨⟨10, -5, 20, 10⟩, true⟩ : Obstacle) ≠ ⟨⟨6, -5, 3, 10⟩, true⟩ := by
  refine ⟨⟨⟨1 / 100, by norm_num, by apply Vec.ext_xy <;> simp⟩, by simp [Vec.normSq]⟩,
    ?_, ?_, by norm_num, ?_, by simp⟩
  · have e : ((⟨0, 0⟩ : Vec) + (6 : ℚ) • ⟨1, 0⟩) = (⟨6, 0⟩ : Vec) := by
      apply Vec.ext_xy <;> simp
    rw [e, collidepoint_true_iff]
    norm_num
  · have e : ((⟨0, 0⟩ : Vec) + (10 : ℚ) • ⟨1, 0⟩) = (⟨10, 0⟩ : Vec) := by
      apply Vec.ext_xy <;> simp
    rw [e, collidepoint_true_iff]
    norm_num
  · rw [raycast_to_wall_pos]
    · have h2 : ((⟨0, 0⟩ : Vec) + ((step_size * ((2 : ℕ) : ℚ)) • ⟨1, 0⟩)) = (⟨10, 0⟩ : Vec) := by
        apply Vec.ext_xy <;> simp [step_size]
        norm_num
      have hkey := raycastSteps_first_hit (⟨1, 0⟩ : Vec)
        [⟨⟨6, -5, 3, 10⟩, true⟩, ⟨⟨10, -5, 20, 10⟩, true⟩]
        num_steps 2 ⟨0, 0⟩ ⟨⟨10, -5, 20, 10⟩, true⟩ (by norm_num) (by norm_num [num_steps])
        (by
          intro j hj1 hj2
          have hj : j = 1 := by omega
          subst hj
          have h1 : ((⟨0, 0⟩ : Vec) + ((step_size * ((1 : ℕ) : ℚ)) • ⟨1, 0⟩)) = (⟨5, 0⟩ : Vec) := by
            apply Vec.ext_xy <;> simp [step_size]
          rw [h1, findHitObstacle_cons, if_neg, findHitObstacle_cons, if_neg, findHitObstacle_nil]
          · rw [Bool.not_eq_true, collidepoint_false_iff]; norm_num
          · rw [Bool.not_eq_true, collidepoint_false_iff]; norm_num)
        (by
          rw [h2, findHitObstacle_cons, if_neg, findHitObstacle_cons, if_pos]
          · rw [collidepoint_true_iff]; norm_num
          · rw [Bool.not_eq_true, collidepoint_false_iff]; norm_num)
      rw [hkey, h2]
      have hn : calculate_wall_normal ⟨10, 0⟩ ⟨⟨10, -5, 20, 10⟩, true⟩ = ⟨-1, 0⟩ := by
        simp only [calculate_wall_normal, Rect.left, Rect.right, Rect.top, Rect.bottom]
        norm_num
      rw [hn]
    · simp only [Vec.normSq, Vec.sub_x, Vec.sub_y]
      norm_num

/-- C4 amended: nearest-hit holds in the granularity of the probe march: if
the probe point of index `kA` is the first probe inside obstacle `A` and no
probe of index up to `kA` lies inside obstacle `B`, then `cast` over the two
obstacles (in either list order) returns `A`, at that probe point. -/
theorem C4_amended_first_probe_hit_wins (start_pos end_pos unit_dir : Vec)
    (A B : Obstacle) (kA : Nat)
    (hz : (end_pos - start_pos).normSq ≠ 0)
    (hk1 : 1 ≤ kA) (hk2 : kA ≤ num_steps)
    (hA : A.rect.collidepoint (start_pos + ((step_size * kA : ℚ)) • unit_dir) = true)
    (hAfirst : ∀ j : Nat, 1 ≤ j → j < kA →
      A.rect.collidepoint (start_pos + ((step_size * j : ℚ)) • unit_dir) = false)
    (hB : ∀ j : Nat, 1 ≤ j → j ≤ kA →
      B.rect.collidepoint (start_pos + ((step_size * j : ℚ)) • unit_dir) = false) :
    (∃ hit, raycast_to_wall start_pos end_pos unit_dir [A, B] = some hit ∧
       hit.obstacle = A ∧ hit.pos = start_pos + ((step_size * kA : ℚ)) • unit_dir) ∧
    (∃ hit, raycast_to_wall start_pos end_pos unit_dir [B, A] = some hit ∧
       hit.obstacle = A ∧ hit.pos = start_pos + ((step_size * kA : ℚ)) • unit_dir) := by
  constructor
  · have hkey := raycastSteps_first_hit unit_dir [A, B] num_steps kA start_pos A hk1 hk2
      (by
        intro j hj1 hj2
        rw [findHitObstacle_cons, if_neg, findHitObstacle_cons, if_neg, findHitObstacle_nil]
        · simp [hB j hj1 (le_of_lt hj2)]
        · simp [hAfirst j hj1 hj2])
      (by rw [findHitObstacle_cons, if_pos hA])
    rw [raycast_to_wall_pos _ _ _ _ hz, hkey]
    exact ⟨_, rfl, rfl, rfl⟩
  · have hkey := raycastSteps_first_hit unit_dir [B, A] num_steps kA start_pos A hk1 hk2
      (by
        intro j hj1 hj2
        rw [findHitObstacle_cons, if_neg, findHitObstacle_cons, if_neg, findHitObstacle_nil]
        · simp [hAfirst j hj1 hj2]
        · simp [hB j hj1 (le_of_lt hj2)])
      (by
        rw [findHitObstacle_cons, if_neg, findHitObstacle_cons, if_pos hA]
        simp [hB kA hk1 le_rfl])
    rw [raycast_to_wall_pos _ _ _ _ hz, hkey]
    exact ⟨_, rfl, rfl, rfl⟩

/-- C4 witness: obstacle spanning x in [10,30) is first reached at probe
index 2; a second obstacle at x in [50,70) is farther; the raycast returns
the first one in both list orders. -/
theorem C4_witness :
    (∃ hit, raycast_to_wall ⟨0, 0⟩ ⟨100, 0⟩ ⟨1, 0⟩
        [⟨⟨10, -5, 20, 10⟩, true⟩, ⟨⟨50, -5, 20, 10⟩, true⟩] = some hit ∧
       hit.obstacle = ⟨⟨10, -5, 20, 10⟩, true⟩ ∧
       hit.pos = (⟨0, 0⟩ : Vec) + ((step_size * ((2 : ℕ) : ℚ)) • ⟨1, 0⟩)) ∧
    (∃ hit, raycast_to_wall ⟨0, 0⟩ ⟨100, 0⟩ ⟨1, 0⟩
        [⟨⟨50, -5, 20, 10⟩, true⟩, ⟨⟨10, -5, 20, 10⟩, true⟩] = some hit ∧
       hit.obstacle = ⟨⟨10, -5, 20, 10⟩, true⟩ ∧
       hit.pos = (⟨0, 0⟩ : Vec) + ((step_size * ((2 : ℕ) : ℚ)) • ⟨1, 0⟩)) := by
  have e1 : ((⟨0, 0⟩ : Vec) + ((step_size * ((1 : ℕ) : ℚ)) • ⟨1, 0⟩)) = (⟨5, 0⟩ : Vec) := by
    apply Vec.ext_xy <;> simp [step_size]
  have e2 : ((⟨0, 0⟩ : Vec) + ((step_size * ((2 : ℕ) : ℚ)) • ⟨1, 0⟩)) = (⟨10, 0⟩ : Vec) := by
    apply Vec.ext_xy <;> simp [step_size]
    norm_num
  exact C4_amended_first_probe_hit_wins ⟨0, 0⟩ ⟨100, 0⟩ ⟨1, 0⟩
    ⟨⟨10, -5, 20, 10⟩, true⟩ ⟨⟨50, -5, 20, 10⟩, true⟩ 2
    (by simp only [Vec.normSq, Vec.sub_x, Vec.sub_y]; norm_num)
    (by norm_num) (by norm_num [num_steps])
    (by rw [e2, collidepoint_true_iff]; norm_num)
    (by
      intro j hj1 hj2
      have hj : j = 1 := by omega
      subst hj
      rw [e1, collidepoint_false_iff]
      norm_num)
    (by
      intro j hj1 hj2
      interval_cases j
      · rw [e1, collidepoint_false_iff]; norm_num
      · rw [e2, collidepoint_false_iff]; norm_num)

theorem min4_le_1 (a b c d : ℚ) : min (min (min a b) c) d ≤ a :=
  le_trans (min_le_left _ _) (le_trans (min_le_left _ _) (min_le_left _ _))

theorem min4_le_2 (a b c d : ℚ) : min (min (min a b) c) d ≤ b :=
  le_trans (min_le_left _ _) (le_trans (min_le_left _ _) (min_le_right _ _))

theorem min4_le_3 (a b c d : ℚ) : min (min (min a b) c) d ≤ c :=
  le_trans (min_le_left _ _) (min_le_right _ _)

theorem min4_le_4 (a b c d : ℚ) : min (min (min a b) c) d ≤ d :=
  min_le_right _ _

theorem min4_eq_1 {a b c d : ℚ} (h1 : a ≤ b) (h2 : a ≤ c) (h3 : a ≤ d) :
    min (min (min a b) c) d = a := by
  rw [min_eq_left h1, min_eq_left h2, min_eq_left h3]

theorem min4_eq_2 {a b c d : ℚ} (h1 : b ≤ a) (h2 : b ≤ c) (h3 : b ≤ d) :
    min (min (min a b) c) d = b := by
  rw [min_eq_right h1, min_eq_left h2, min_eq_left h3]

theorem min4_eq_3 {a b c d : ℚ} (h1 : c ≤ a) (h2 : c ≤ b) (h3 : c ≤ d) :
    min (min (min a b) c) d = c := by
  rw [min_eq_right (le_min h1 h2), min_eq_left h3]

/-- C5: the returned outward normal is the axis-aligned unit vector of the
rectangle edge whose distance to the hit point is minimal, ties broken in the
fixed order left, right, top, bottom; the result is always one of the four
axis-aligned unit vectors. -/
theorem C5_wall_normal_min_edge (hit_pos : Vec) (obstacle : Obstacle) :
    (calculate_wall_normal hit_pos obstacle = ⟨-1, 0⟩ ∨
     calculate_wall_normal hit_pos obstacle = ⟨1, 0⟩ ∨
     calculate_wall_normal hit_pos obstacle = ⟨0, -1⟩ ∨
     calculate_wall_normal hit_pos obstacle = ⟨0, 1⟩) ∧
    (|hit_pos.x - obstacle.rect.left| ≤ |hit_pos.x - obstacle.rect.right| ∧
     |hit_pos.x - obstacle.rect.left| ≤ |hit_pos.y - obstacle.rect.top| ∧
     |hit_pos.x - obstacle.rect.left| ≤ |hit_pos.y - obstacle.rect.bottom| →
      calculate_wall_normal hit_pos obstacle = ⟨-1, 0⟩) ∧
    (|hit_pos.x - obstacle.rect.right| < |hit_pos.x - obstacle.rect.left| ∧
     |hit_pos.x - obstacle.rect.right| ≤ |hit_pos.y - obstacle.rect.top| ∧
     |hit_pos.x - obstacle.rect.right| ≤ |hit_pos.y - obstacle.rect.bottom| →
      calculate_wall_normal hit_pos obstacle = ⟨1, 0⟩) ∧
    (|hit_pos.y - obstacle.rect.top| < |hit_pos.x - obstacle.rect.left| ∧
     |hit_pos.y - obstacle.rect.top| < |hit_pos.x - obstacle.rect.right| ∧
     |hit_pos.y - obstacle.rect.top| ≤ |hit_pos.y - obstacle.rect.bottom| →
      calculate_wall_normal hit_pos obstacle = ⟨0, -1⟩) ∧
    (|hit_pos.y - obstacle.rect.bottom| < |hit_pos.x - obstacle.rect.left| ∧
     |hit_pos.y - obstacle.rect.bottom| < |hit_pos.x - obstacle.rect.right| ∧
     |hit_pos.y - obstacle.rect.bottom| < |hit_pos.y - obstacle.rect.top| →
      calculate_wall_normal hit_pos obstacle = ⟨0, 1⟩) := by
  refine ⟨?_, ?_, ?_, ?_, ?_⟩
  · simp only [calculate_wall_normal]
    split_ifs <;> simp
  · rintro ⟨h1, h2, h3⟩
    simp only [calculate_wall_normal]
    split_ifs with g1 g2 g3
    · rfl
    all_goals exact absurd (min4_eq_1 h1 h2 h3) g1
  · rintro ⟨h1, h2, h3⟩
    simp only [calculate_wall_normal]
    split_ifs with g1 g2 g3
    · have := min4_le_2 |hit_pos.x - obstacle.rect.left| |hit_pos.x - obstacle.rect.right|
        |hit_pos.y - obstacle.rect.top| |hit_pos.y - obstacle.rect.bottom|
      rw [g1] at this
      linarith
    · rfl
    all_goals exact absurd (min4_eq_2 (le_of_lt h1) h2 h3) g2
  · rintro ⟨h1, h2, h3⟩
    simp only [calculate_wall_normal]
    split_ifs with g1 g2 g3
    · have := min4_le_3 |hit_pos.x - obstacle.rect.left| |hit_pos.x - obstacle.rect.right|
        |hit_pos.y - obstacle.rect.top| |hit_pos.y - obstacle.rect.bottom|
      rw [g1] at this
      linarith
    · have := min4_le_3 |hit_pos.x - obstacle.rect.left| |hit_pos.x - obstacle.rect.right|
        |hit_pos.y - obstacle.rect.top| |hit_pos.y - obstacle.rect.bottom|
      rw [g2] at this
      linarith
    · rfl
    · exact absurd (min4_eq_3 (le_of_lt h1) (le_of_lt h2) h3) g3
  · rintro ⟨h1, h2, h3⟩
    simp only [calculate_wall_normal]
    split_ifs with g1 g2 g3
    · have := min4_le_4 |hit_pos.x - obstacle.rect.left| |hit_pos.x - obstacle.rect.right|
        |hit_pos.y - obstacle.rect.top| |hit_pos.y - obstacle.rect.bottom|
      rw [g1] at this
      linarith
    · have := min4_le_4 |hit_pos.x - obstacle.rect.left| |hit_pos.x - obstacle.rect.right|
        |hit_pos.y - obstacle.rect.top| |hit_pos.y - obstacle.rect.bottom|
      rw [g2] at this
      linarith
    · have := min4_le_4 |hit_pos.x - obstacle.rect.left| |hit_pos.x - obstacle.rect.right|
        |hit_pos.y - obstacle.rect.top| |hit_pos.y - obstacle.rect.bottom|
      rw [g3] at this
      linarith
    · rfl

/-- C5 witness: the hit point (1,5) on the rectangle [0,10)x[0,10) is closest
to the left edge and receives the normal (-1, 0). -/
theorem C5_witness :
    (|(⟨1, 5⟩ : Vec).x - (⟨⟨0, 0, 10, 10⟩, true⟩ : Obstacle).rect.left| ≤
       |(⟨1, 5⟩ : Vec).x - (⟨⟨0, 0, 10, 10⟩, true⟩ : Obstacle).rect.right| ∧
     |(⟨1, 5⟩ : Vec).x - (⟨⟨0, 0, 10, 10⟩, true⟩ : Obstacle).rect.left| ≤
       |(⟨1, 5⟩ : Vec).y - (⟨⟨0, 0, 10, 10⟩, true⟩ : Obstacle).rect.top| ∧
     |(⟨1, 5⟩ : Vec).x - (⟨⟨0, 0, 10, 10⟩, true⟩ : Obstacle).rect.left| ≤
       |(⟨1, 5⟩ : Vec).y - (⟨⟨0, 0, 10, 10⟩, true⟩ : Obstacle).rect.bottom|) ∧
    calculate_wall_normal ⟨1, 5⟩ ⟨⟨0, 0, 10, 10⟩, true⟩ = ⟨-1, 0⟩ := by
  have h : |(⟨1, 5⟩ : Vec).x - (⟨⟨0, 0, 10, 10⟩, true⟩ : Obstacle).rect.left| ≤
       |(⟨1, 5⟩ : Vec).x - (⟨⟨0, 0, 10, 10⟩, true⟩ : Obstacle).rect.right| ∧
     |(⟨1, 5⟩ : Vec).x - (⟨⟨0, 0, 10, 10⟩, true⟩ : Obstacle).rect.left| ≤
       |(⟨1, 5⟩ : Vec).y - (⟨⟨0, 0, 10, 10⟩, true⟩ : Obstacle).rect.top| ∧
     |(⟨1, 5⟩ : Vec).x - (⟨⟨0, 0, 10, 10⟩, true⟩ : Obstacle).rect.left| ≤
       |(⟨1, 5⟩ : Vec).y - (⟨⟨0, 0, 10, 10⟩, true⟩ : Obstacle).rect.bottom| := by
    simp only [Rect.left, Rect.right, Rect.top, Rect.bottom]
    norm_num
  exact ⟨h, (C5_wall_normal_min_edge ⟨1, 5⟩ ⟨⟨0, 0, 10, 10⟩, true⟩).2.1 h⟩

/-- C6: every placed portal obeys the orientation law: `|normal.x| > |normal.y|`
gives a vertical portal of width 20, height 80 and angle 90; otherwise a
horizontal portal of width 80, height 20 and angle 0 — no third outcome, and
the dimensions are fixed functions of the orientation, not per-instance data. -/
theorem C6_orientation_law (player_pos target_pos unit_dir : Vec)
    (color : PortalColor) (obstacles : List Obstacle) (P : Portal)
    (h : create_portal player_pos target_pos unit_dir color obstacles = some P) :
    ∃ hit, raycast_to_wall player_pos target_pos unit_dir obstacles = some hit ∧
      (|hit.normal.x| > |hit.normal.y| →
        P.orientation = PortalOrientation.vertical ∧
        P.width = 20 ∧ P.height = 80 ∧ P.angle = 90) ∧
      (¬ |hit.normal.x| > |hit.normal.y| →
        P.orientation = PortalOrientation.horizontal ∧
        P.width = 80 ∧ P.height = 20 ∧ P.angle = 0) := by
  unfold create_portal at h
  split at h
  next hray => cases h
  next hit hray =>
    refine ⟨hit, hray, ?_, ?_⟩
    · intro hcond
      by_cases hall : hit.obstacle.allows_portals
      · rw [if_pos hall] at h
        simp only [hcond, if_true] at h
        cases h
        exact ⟨rfl, rfl, rfl, rfl⟩
      · rw [if_neg hall] at h
        cases h
    · intro hcond
      by_cases hall : hit.obstacle.allows_portals
      · rw [if_pos hall] at h
        simp only [if_neg hcond] at h
        cases h
        exact ⟨rfl, rfl, rfl, rfl⟩
      · rw [if_neg hall] at h
        cases h

/-- Concrete placement in the wall scene: the hit at (10, 0) with normal
(-1, 0) yields a vertical blue portal shifted to (0, -40). -/
theorem sceneW_portal :
    create_portal ⟨0, 0⟩ ⟨100, 0⟩ ⟨1, 0⟩ PortalColor.blue [⟨⟨10, -5, 20, 10⟩, true⟩] =
      some ⟨⟨0, -40⟩, PortalOrientation.vertical, PortalColor.blue⟩ := by
  unfold create_portal
  rw [sceneW_hit]
  norm_num [Portal.width, Portal.height]

/-- C6 witness: the concrete placement satisfies the orientation law with a
vertical portal. -/
theorem C6_witness :
    create_portal ⟨0, 0⟩ ⟨100, 0⟩ ⟨1, 0⟩ PortalColor.blue [⟨⟨10, -5, 20, 10⟩, true⟩] =
      some ⟨⟨0, -40⟩, PortalOrientation.vertical, PortalColor.blue⟩ ∧
    ∃ hit, raycast_to_wall ⟨0, 0⟩ ⟨100, 0⟩ ⟨1, 0⟩ [⟨⟨10, -5, 20, 10⟩, true⟩] = some hit ∧
      (|hit.normal.x| > |hit.normal.y| →
        (⟨⟨0, -40⟩, PortalOrientation.vertical, PortalColor.blue⟩ : Portal).orientation =
          PortalOrientation.vertical ∧
        (⟨⟨0, -40⟩, PortalOrientation.vertical, PortalColor.blue⟩ : Portal).width = 20 ∧
        (⟨⟨0, -40⟩, PortalOrientation.vertical, PortalColor.blue⟩ : Portal).height = 80 ∧
        (⟨⟨0, -40⟩, PortalOrientation.vertical, PortalColor.blue⟩ : Portal).angle = 90) ∧
      (¬ |hit.normal.x| > |hit.normal.y| →
        (⟨⟨0, -40⟩, PortalOrientation.vertical, PortalColor.blue⟩ : Portal).orientation =
          PortalOrientation.horizontal ∧
        (⟨⟨0, -40⟩, PortalOrientation.vertical, PortalColor.blue⟩ : Portal).width = 80 ∧
        (⟨⟨0, -40⟩, PortalOrientation.vertical, PortalColor.blue⟩ : Portal).height = 20 ∧
        (⟨⟨0, -40⟩, PortalOrientation.vertical, PortalColor.blue⟩ : Portal).angle = 0) :=
  ⟨sceneW_portal,
   C6_orientation_law ⟨0, 0⟩ ⟨100, 0⟩ ⟨1, 0⟩ PortalColor.blue
     [⟨⟨10, -5, 20, 10⟩, true⟩] _ sceneW_portal⟩

/-- C8: when the velocity component along the entry portal's orientation axis
is zero, the penetration direction defaults to the fixed sign -1, identically
for the player and the generic physics body, in both orientations. -/
theorem C8_zero_velocity_penetration_dir (v : Vec) :
    (v.x = 0 →
      player_penetration_dir PortalOrientation.vertical v = -1 ∧
      object_penetration_dir PortalOrientation.vertical v = -1) ∧
    (v.y = 0 →
      player_penetration_dir PortalOrientation.horizontal v = -1 ∧
      object_penetration_dir PortalOrientation.horizontal v = -1) := by
  constructor
  · intro hx
    unfold player_penetration_dir object_penetration_dir
    rw [hx]
    norm_num
  · intro hy
    unfold player_penetration_dir object_penetration_dir
    rw [hy]
    norm_num

/-- C8 witness: a purely vertical velocity entering a vertical portal gets
penetration direction -1 for both actor kinds. -/
theorem C8_witness :
    ((⟨0, 5⟩ : Vec).x = 0) ∧
    player_penetration_dir PortalOrientation.vertical ⟨0, 5⟩ = -1 ∧
    object_penetration_dir PortalOrientation.vertical ⟨0, 5⟩ = -1 :=
  ⟨rfl, (C8_zero_velocity_penetration_dir ⟨0, 5⟩).1 rfl⟩

/-- C7: a round trip A to B then B to A (rotation by the angle delta then the
1.05 boost, then rotation by the negated delta and the boost again) multiplies
the velocity by exactly 1.05 * 1.05 = 441/400, preserving its direction; and
when both portals share the same angle the rotation step alone is the
identity on the velocity. Portals are quantified through their constructor
fields, so the angles are the 0/90 values the program can produce. -/
theorem C7_round_trip_velocity (s : PlayerState) (p1 p2 : Vec)
    (o1 o2 : PortalOrientation) (c1 c2 : PortalColor) :
    ((s.teleport_through_portal ⟨p1, o1, c1⟩ ⟨p2, o2, c2⟩).teleport_through_portal
        ⟨p2, o2, c2⟩ ⟨p1, o1, c1⟩).vel = (441 / 400 : ℚ) • s.vel ∧
    ((⟨p1, o1, c1⟩ : Portal).angle = (⟨p2, o2, c2⟩ : Portal).angle →
      rotate_velocity
          ((⟨p2, o2, c2⟩ : Portal).angle - (⟨p1, o1, c1⟩ : Portal).angle) s.vel
        = s.vel) := by
  constructor
  · cases o1 <;> cases o2 <;>
      (apply Vec.ext_xy <;>
        norm_num [PlayerState.teleport_through_portal, rotate_velocity,
          Portal.angle, cosDeg, sinDeg] <;> ring)
  · intro hang
    have h0 : (⟨p2, o2, c2⟩ : Portal).angle - (⟨p1, o1, c1⟩ : Portal).angle = 0 := by
      rw [hang]; ring
    rw [h0]
    apply Vec.ext_xy <;> simp [rotate_velocity, cosDeg, sinDeg]

/-- C7 witness: two vertical portals (equal angles); the rotation step leaves
the velocity (3, 4) unchanged. -/
theorem C7_witness :
    (⟨⟨0, 0⟩, PortalOrientation.vertical, PortalColor.blue⟩ : Portal).angle =
      (⟨⟨500, 0⟩, PortalOrientation.vertical, PortalColor.orange⟩ : Portal).angle ∧
    rotate_velocity
        ((⟨⟨500, 0⟩, PortalOrientation.vertical, PortalColor.orange⟩ : Portal).angle -
         (⟨⟨0, 0⟩, PortalOrientation.vertical, PortalColor.blue⟩ : Portal).angle)
        ⟨3, 4⟩ = ⟨3, 4⟩ :=
  ⟨rfl,
   (C7_round_trip_velocity ⟨⟨0, 0⟩, ⟨3, 4⟩, none, none⟩ ⟨0, 0⟩ ⟨500, 0⟩
      PortalOrientation.vertical PortalOrientation.vertical
      PortalColor.blue PortalColor.orange).2 rfl⟩

/-- C3 counterexample: the patrol enemy's transfer applies no 1.05 boost: with
equal portal angles a velocity of (200, 0) stays (200, 0) through the enemy
transfer, while the shared algorithm of the claim would give (210, 0). -/
theorem C3_counterexample :
    (EnemyState.teleport_through_portal ⟨⟨0, 0⟩, ⟨200, 0⟩⟩
        ⟨⟨0, 0⟩, PortalOrientation.vertical, PortalColor.blue⟩
        ⟨⟨500, 0⟩, PortalOrientation.vertical, PortalColor.orange⟩).vel = ⟨200, 0⟩ ∧
    (21 / 20 : ℚ) • rotate_velocity
        ((⟨⟨500, 0⟩, PortalOrientation.vertical, PortalColor.orange⟩ : Portal).angle -
         (⟨⟨0, 0⟩, PortalOrientation.vertical, PortalColor.blue⟩ : Portal).angle)
        ⟨200, 0⟩ = ⟨210, 0⟩ ∧
    ((⟨200, 0⟩ : Vec) ≠ ⟨210, 0⟩) := by
  refine ⟨?_, ?_, ?_⟩
  · apply Vec.ext_xy <;>
      norm_num [EnemyState.teleport_through_portal, rotate_velocity,
        Portal.angle, cosDeg, sinDeg]
  · apply Vec.ext_xy <;>
      norm_num [rotate_velocity, Portal.angle, cosDeg, sinDeg]
  · intro h
    have := congrArg Vec.x h
    norm_num at this

/-- C3 amended: the player and the generic physics body share the transfer
algorithm — the same penetration-direction rule (the two per-kind functions
are equal), the same exit-repositioning rule `reposition_at_exit` with
lateral-offset preservation from the entry portal's center (instantiated only
with the per-kind clearance configuration: the constant 25 for the player,
`size / 2` per axis for the physics body, and each kind's size and center),
and the same velocity law of rotation by the angle delta followed by the 1.05
boost. The patrol enemy shares only the rotation: its transfer applies no
boost and snaps its position to the exit portal's stored top-left position. -/
theorem C3_amended_transfer_algorithms (s : PlayerState) (t : ObjectState)
    (e : EnemyState) (A B : Portal) :
    (s.teleport_through_portal A B).vel
        = (21 / 20 : ℚ) • rotate_velocity (B.angle - A.angle) s.vel ∧
    (t.teleport_through_portal A B).vel
        = (21 / 20 : ℚ) • rotate_velocity (B.angle - A.angle) t.vel ∧
    (s.teleport_through_portal A B).pos =
      reposition_at_exit 25 25 player_size
        ⟨s.pos.x + player_size.x / 2, s.pos.y + player_size.y / 2⟩ A B
        (player_penetration_dir A.orientation s.vel) ∧
    (t.teleport_through_portal A B).pos =
      reposition_at_exit (t.size.x / 2) (t.size.y / 2) t.size t.rect.center A B
        (object_penetration_dir A.orientation t.vel) ∧
    (e.teleport_through_portal A B).vel = rotate_velocity (B.angle - A.angle) e.vel ∧
    (e.teleport_through_portal A B).pos = B.pos ∧
    player_penetration_dir = object_penetration_dir := by
  obtain ⟨pB, oB, cB⟩ := B
  refine ⟨rfl, rfl, ?_, ?_, rfl, ?_, ?_⟩
  · cases oB <;> rfl
  · cases oB <;> rfl
  · apply Vec.ext_xy <;> rfl
  · funext o v
    cases o <;> rfl

theorem raycast_nil (a b u : Vec) : raycast_to_wall a b u [] = none := by
  simp only [raycast_to_wall]
  split_ifs with h
  · rfl
  · exact raycastSteps_nil u num_steps a

theorem create_portal_nil (a b u : Vec) (c : PortalColor) :
    create_portal a b u c [] = none := by
  unfold create_portal
  rw [raycast_nil]

/-- C1 counterexample: with no obstacle the placement is rejected
(`create_portal` returns none), yet `handle_event` still assigns that result
to the channel, so an existing blue portal is destroyed rather than left
unchanged. -/
theorem C1_counterexample :
    create_portal ⟨0, 0⟩ ⟨100, 0⟩ ⟨1, 0⟩ PortalColor.blue [] = none ∧
    (handle_event
        ⟨⟨0, 0⟩, ⟨0, 0⟩, some ⟨⟨7, 7⟩, PortalOrientation.vertical, PortalColor.blue⟩, none⟩
        1 ⟨100, 0⟩ ⟨0, 0⟩ ⟨1, 0⟩ []).blue_portal = none ∧
    some (⟨⟨7, 7⟩, PortalOrientation.vertical, PortalColor.blue⟩ : Portal) ≠ none := by
  refine ⟨create_portal_nil _ _ _ _, ?_, ?_⟩
  · unfold handle_event
    rw [if_pos rfl]
    exact create_portal_nil _ _ _ _
  · simp

/-- C1 amended: `handle_event` overwrites the struck channel with the raw
result of `create_portal` — `none` on a rejected placement (clearing any
previous portal in that channel), the new portal on success — and leaves the
other channel and the rest of the player state unchanged. -/
theorem C1_amended_placement_overwrites_channel (s : PlayerState)
    (mouse_pos camera_offset unit_dir : Vec) (obstacles : List Obstacle) :
    (handle_event s 1 mouse_pos camera_offset unit_dir obstacles).blue_portal =
      create_portal s.pos ⟨mouse_pos.x + camera_offset.x, mouse_pos.y + camera_offset.y⟩
        unit_dir PortalColor.blue obstacles ∧
    (handle_event s 1 mouse_pos camera_offset unit_dir obstacles).orange_portal =
      s.orange_portal ∧
    (handle_event s 3 mouse_pos camera_offset unit_dir obstacles).orange_portal =
      create_portal s.pos ⟨mouse_pos.x + camera_offset.x, mouse_pos.y + camera_offset.y⟩
        unit_dir PortalColor.orange obstacles ∧
    (handle_event s 3 mouse_pos camera_offset unit_dir obstacles).blue_portal =
      s.blue_portal ∧
    (handle_event s 1 mouse_pos camera_offset unit_dir obstacles).pos = s.pos ∧
    (handle_event s 1 mouse_pos camera_offset unit_dir obstacles).vel = s.vel :=
  ⟨rfl, rfl, rfl, rfl, rfl, rfl⟩

theorem colliderect_true_iff (a b : Rect) :
    a.colliderect b = true ↔
      a.x < b.x + b.w ∧ a.x + a.w > b.x ∧ a.y < b.y + b.h ∧ a.y + a.h > b.y := by
  simp [Rect.colliderect, Rect.left, Rect.right, Rect.top, Rect.bottom, and_assoc]

theorem colliderect_false_iff (a b : Rect) :
    a.colliderect b = false ↔
      ¬(a.x < b.x + b.w ∧ a.x + a.w > b.x ∧ a.y < b.y + b.h ∧ a.y + a.h > b.y) := by
  rw [← colliderect_true_iff]
  cases h : a.colliderect b <;> simp

/-- C2 counterexample: the exit clearance is measured from the portal's stored
top-left corner, not its center, so the guarantee fails even with clearance at
least half the actor dimension: the player (clearance 25, width 32) entering
with negative penetration direction lands overlapping the exit portal, and a
30-wide physics body (clearance size/2 = 15) overlaps it even with positive
penetration direction. -/
theorem C2_counterexample :
    ((25 : ℚ) ≥ 32 / 2) ∧
    Rect.colliderect
      (PlayerState.rect (PlayerState.teleport_through_portal
        ⟨⟨0, 8⟩, ⟨-200, 0⟩, none, none⟩
        ⟨⟨0, 0⟩, PortalOrientation.vertical, PortalColor.blue⟩
        ⟨⟨500, 0⟩, PortalOrientation.vertical, PortalColor.orange⟩))
      (Portal.rect ⟨⟨500, 0⟩, PortalOrientation.vertical, PortalColor.orange⟩) = true ∧
    ((30 : ℚ) / 2 ≥ 30 / 2) ∧
    Rect.colliderect
      (ObjectState.rect (ObjectState.teleport_through_portal
        ⟨⟨0, 15⟩, ⟨200, 0⟩, ⟨30, 30⟩⟩
        ⟨⟨0, 0⟩, PortalOrientation.vertical, PortalColor.blue⟩
        ⟨⟨500, 0⟩, PortalOrientation.vertical, PortalColor.orange⟩))
      (Portal.rect ⟨⟨500, 0⟩, PortalOrientation.vertical, PortalColor.orange⟩) = true := by
  refine ⟨by norm_num, ?_, by norm_num, ?_⟩
  · have hp : (PlayerState.teleport_through_portal
        ⟨⟨0, 8⟩, ⟨-200, 0⟩, none, none⟩
        ⟨⟨0, 0⟩, PortalOrientation.vertical, PortalColor.blue⟩
        ⟨⟨500, 0⟩, PortalOrientation.vertical, PortalColor.orange⟩).pos = ⟨475, 8⟩ := by
      apply Vec.ext_xy <;>
        norm_num [PlayerState.teleport_through_portal, player_penetration_dir,
          Portal.rect, Rect.center, Portal.height, Portal.width, player_size]
    have hr : PlayerState.rect (PlayerState.teleport_through_portal
        ⟨⟨0, 8⟩, ⟨-200, 0⟩, none, none⟩
        ⟨⟨0, 0⟩, PortalOrientation.vertical, PortalColor.blue⟩
        ⟨⟨500, 0⟩, PortalOrientation.vertical, PortalColor.orange⟩) = ⟨475, 8, 32, 64⟩ := by
      rw [PlayerState.rect, hp]
      rfl
    rw [hr, colliderect_true_iff]
    norm_num [Portal.rect, Portal.width, Portal.height]
  · have hp : (ObjectState.teleport_through_portal
        ⟨⟨0, 15⟩, ⟨200, 0⟩, ⟨30, 30⟩⟩
        ⟨⟨0, 0⟩, PortalOrientation.vertical, PortalColor.blue⟩
        ⟨⟨500, 0⟩, PortalOrientation.vertical, PortalColor.orange⟩).pos = ⟨515, 15⟩ := by
      apply Vec.ext_xy <;>
        norm_num [ObjectState.teleport_through_portal, object_penetration_dir,
          ObjectState.rect, Portal.rect, Rect.center, Portal.height, Portal.width]
    have hr : ObjectState.rect (ObjectState.teleport_through_portal
        ⟨⟨0, 15⟩, ⟨200, 0⟩, ⟨30, 30⟩⟩
        ⟨⟨0, 0⟩, PortalOrientation.vertical, PortalColor.blue⟩
        ⟨⟨500, 0⟩, PortalOrientation.vertical, PortalColor.orange⟩) = ⟨515, 15, 30, 30⟩ := by
      rw [ObjectState.rect, hp]
      rfl
    rw [hr, colliderect_true_iff]
    norm_num [Portal.rect, Portal.width, Portal.height]

/-- C2 amended: the non-overlap guarantee holds for the player exactly when
the penetration direction is +1: the clearance 25 then exceeds the exit
portal's thickness 20 measured from its stored top-left corner, so the
post-transfer player rectangle does not intersect the exit portal's
rectangle (for either exit orientation). No such guarantee holds for the
entry portal, for penetration direction -1, or for the generic physics body. -/
theorem C2_amended_player_clear_of_exit (s : PlayerState) (A B : Portal)
    (hdir : player_penetration_dir A.orientation s.vel = 1) :
    Rect.colliderect (PlayerState.rect (s.teleport_through_portal A B)) B.rect = false := by
  rw [colliderect_false_iff]
  intro hc
  cases hB : B.orientation with
  | vertical =>
    obtain ⟨h1, -, -, -⟩ := hc
    simp only [PlayerState.rect, Portal.rect, PlayerState.teleport_through_portal,
      Portal.width, hB, hdir] at h1
    linarith
  | horizontal =>
    obtain ⟨-, -, h3, -⟩ := hc
    simp only [PlayerState.rect, Portal.rect, PlayerState.teleport_through_portal,
      Portal.height, hB, hdir] at h3
    linarith

/-- C2 witness: a player moving right (penetration direction +1) through a
vertical entry portal lands clear of the vertical exit portal. -/
theorem C2_witness :
    player_penetration_dir
        (⟨⟨0, 0⟩, PortalOrientation.vertical, PortalColor.blue⟩ : Portal).orientation
        ⟨200, 0⟩ = 1 ∧
    Rect.colliderect
      (PlayerState.rect (PlayerState.teleport_through_portal
        ⟨⟨0, 8⟩, ⟨200, 0⟩, none, none⟩
        ⟨⟨0, 0⟩, PortalOrientation.vertical, PortalColor.blue⟩
        ⟨⟨500, 0⟩, PortalOrientation.vertical, PortalColor.orange⟩))
      (Portal.rect ⟨⟨500, 0⟩, PortalOrientation.vertical, PortalColor.orange⟩) = false := by
  have hdir : player_penetration_dir
      (⟨⟨0, 0⟩, PortalOrientation.vertical, PortalColor.blue⟩ : Portal).orientation
      ⟨200, 0⟩ = 1 := by
    norm_num [player_penetration_dir]
  exact ⟨hdir, C2_amended_player_clear_of_exit
    ⟨⟨0, 8⟩, ⟨200, 0⟩, none, none⟩
    ⟨⟨0, 0⟩, PortalOrientation.vertical, PortalColor.blue⟩
    ⟨⟨500, 0⟩, PortalOrientation.vertical, PortalColor.orange⟩ hdir⟩
